import Mathlib

/-!
Verification development for the photomap metadata-extraction engine.

The Rust sources are shallowly embedded:
* byte buffers become `List ℕ` (each element one byte);
* `u16`/`u32` reads become explicit arithmetic on bytes;
* `f64` values flowing out of EXIF rationals become `EFloat`, an extended
  value type with `finite ℚ`, two infinities and `nan`.  The finite
  arithmetic is modelled exactly over ℚ (IEEE rounding and overflow are
  abstracted away; none of the statements proved here depends on rounding,
  and the claims about infinities/NaN are rounding-independent because an
  IEEE division of a finite nonzero value by zero is exactly ±∞ and 0/0 is
  exactly NaN);
* fallible Rust functions returning `Option`/`Result` become `Option`;
* a Rust slice expression whose bounds are not checked is modelled by an
  explicit out-of-bounds outcome constructor, since `data[a..b]` panics in
  Rust when `b > data.len()` or `a > b`.
-/

namespace Photomap

/-- EXIF byte order, from `gps_parser.rs` `enum ByteOrder`. -/
inductive ByteOrder where
  | littleEndian : ByteOrder
  | bigEndian : ByteOrder
deriving DecidableEq

/-- Extended float value: the shapes an `f64` produced by the EXIF
rational-to-decimal pipeline can take.  Finite values carry the exact
rational they denote. -/
inductive EFloat where
  | finite : ℚ → EFloat
  | posInf : EFloat
  | negInf : EFloat
  | nan : EFloat
deriving DecidableEq

/-- IEEE-style division on `EFloat` (restricted to the cases the embedded
code can produce): a positive finite value divided by zero is `+∞`, a
negative one `-∞`, and `0/0` is `nan`. -/
def ediv : EFloat → EFloat → EFloat
  | .nan, _ => .nan
  | _, .nan => .nan
  | .finite x, .finite y =>
      if y = 0 then (if x = 0 then .nan else if 0 < x then .posInf else .negInf)
      else .finite (x / y)
  | .posInf, .finite y => if y < 0 then .negInf else .posInf
  | .negInf, .finite y => if y < 0 then .posInf else .negInf
  | .finite _, .posInf => .finite 0
  | .finite _, .negInf => .finite 0
  | .posInf, .posInf => .nan
  | .posInf, .negInf => .nan
  | .negInf, .posInf => .nan
  | .negInf, .negInf => .nan

/-- IEEE-style addition on `EFloat`: `nan` is absorbing, opposite
infinities give `nan`. -/
def eadd : EFloat → EFloat → EFloat
  | .nan, _ => .nan
  | _, .nan => .nan
  | .finite x, .finite y => .finite (x + y)
  | .posInf, .negInf => .nan
  | .negInf, .posInf => .nan
  | .posInf, _ => .posInf
  | _, .posInf => .posInf
  | .negInf, _ => .negInf
  | _, .negInf => .negInf

/-- IEEE-style negation on `EFloat` (the Rust code's `decimal *= -1.0`). -/
def eneg : EFloat → EFloat
  | .finite x => .finite (-x)
  | .posInf => .negInf
  | .negInf => .posInf
  | .nan => .nan

/-- `true` iff the value is a finite number (neither infinite nor NaN). -/
def EFloat.isFiniteVal : EFloat → Bool
  | .finite _ => true
  | _ => false

/-- Byte at index `i` of a buffer; all Rust call sites index only after a
bounds check, so the default value is never observed there. -/
def byteAt (d : List ℕ) (i : ℕ) : ℕ := d.getD i 0

/-- `read_u16` from `gps_parser.rs`: two bytes in the given order. -/
def read_u16 (d : List ℕ) (p : ℕ) : ByteOrder → ℕ
  | .littleEndian => byteAt d p + 256 * byteAt d (p + 1)
  | .bigEndian => 256 * byteAt d p + byteAt d (p + 1)

/-- `read_u32` from `gps_parser.rs`: four bytes in the given order. -/
def read_u32 (d : List ℕ) (p : ℕ) : ByteOrder → ℕ
  | .littleEndian =>
      byteAt d p + 256 * byteAt d (p + 1) + 65536 * byteAt d (p + 2) +
        16777216 * byteAt d (p + 3)
  | .bigEndian =>
      16777216 * byteAt d p + 65536 * byteAt d (p + 1) + 256 * byteAt d (p + 2) +
        byteAt d (p + 3)

/-- Contiguous sub-buffer of `n` bytes starting at `a` (Rust `&d[a..a+n]`
at call sites that bounds-check first). -/
def bytesAt (d : List ℕ) (a n : ℕ) : List ℕ := (d.drop a).take n

/-- The bytes of the literal `"Exif\0\0"`. -/
def exifSig : List ℕ := [69, 120, 105, 102, 0, 0]

/-- `read_gps_coordinate` from `gps_parser.rs`: reads three rationals
(degrees, minutes, seconds) at `tiff_start + offset` and converts to a
decimal unless truncated or a denominator is zero.  All divisions happen
under the nonzero-denominator guard, so the result is modelled exactly
over ℚ. -/
def read_gps_coordinate (d : List ℕ) (tiffStart offset : ℕ) (o : ByteOrder) :
    Option ℚ :=
  let pos := tiffStart + offset
  if pos + 24 > d.length then none
  else
    let degNum := read_u32 d pos o
    let degDen := read_u32 d (pos + 4) o
    let minNum := read_u32 d (pos + 8) o
    let minDen := read_u32 d (pos + 12) o
    let secNum := read_u32 d (pos + 16) o
    let secDen := read_u32 d (pos + 20) o
    if degDen = 0 ∨ minDen = 0 ∨ secDen = 0 then none
    else some ((degNum : ℚ) / degDen + ((minNum : ℚ) / minDen) / 60 +
      ((secNum : ℚ) / secDen) / 3600)

/-- Accumulator of the GPS-IFD entry loop in `parse_gps_ifd`. -/
structure GpsScanState where
  lat : Option ℚ
  latRef : Option ℕ
  lon : Option ℚ
  lonRef : Option ℕ
deriving DecidableEq

/-- One pass of the entry loop of `parse_gps_ifd` (`gps_parser.rs`),
structurally recursive on the remaining entry count. -/
def gpsScanLoop (d : List ℕ) (tiffStart : ℕ) (o : ByteOrder) :
    ℕ → ℕ → GpsScanState → GpsScanState
  | _, 0, st => st
  | pos, n + 1, st =>
    if pos + 12 > d.length then st
    else
      let tag := read_u16 d pos o
      let format := read_u16 d (pos + 2) o
      let count := read_u32 d (pos + 4) o
      let valueOffset := read_u32 d (pos + 8) o
      let st2 :=
        if tag = 1 then
          if format = 2 ∧ 1 ≤ count then { st with latRef := some (byteAt d (pos + 8)) }
          else st
        else if tag = 2 then
          if format = 5 ∧ count = 3 then
            { st with lat := read_gps_coordinate d tiffStart valueOffset o }
          else st
        else if tag = 3 then
          if format = 2 ∧ 1 ≤ count then { st with lonRef := some (byteAt d (pos + 8)) }
          else st
        else if tag = 4 then
          if format = 5 ∧ count = 3 then
            { st with lon := read_gps_coordinate d tiffStart valueOffset o }
          else st
        else st
      gpsScanLoop d tiffStart o (pos + 12) n st2

/-- The state left by the full entry loop of `parse_gps_ifd`, anchored at
`tiff_start + gps_offset` (used only under the caller's bounds guard). -/
def gpsScanResult (d : List ℕ) (tiffStart gpsOffset : ℕ) (o : ByteOrder) :
    GpsScanState :=
  gpsScanLoop d tiffStart o (tiffStart + gpsOffset + 2)
    (read_u16 d (tiffStart + gpsOffset) o) ⟨none, none, none, none⟩

/-- `parse_gps_ifd` from `gps_parser.rs`: scan the GPS IFD entries, then
emit the pair only when both latitude and longitude resolved; latitude is
negated when its reference byte is `'S'` (83), longitude when its
reference byte is `'W'` (87); an absent reference leaves the sign
positive. -/
def parse_gps_ifd (d : List ℕ) (tiffStart gpsOffset : ℕ) (o : ByteOrder) :
    Option (ℚ × ℚ) :=
  if tiffStart + gpsOffset + 2 > d.length then none
  else
    let st := gpsScanResult d tiffStart gpsOffset o
    match st.lat, st.lon with
    | some la, some lo =>
        some ((if st.latRef = some 83 then -la else la),
          (if st.lonRef = some 87 then -lo else lo))
    | _, _ => none

/-- Entry loop of `find_gps_ifd_offset` (`gps_parser.rs`): scan up to `n`
12-byte entries looking for the GPS-IFD-pointer tag `0x8825`; return that
entry's value-offset field.  Never reads past the declared entries — in
particular never the next-IFD link that follows them. -/
def findGpsLoop (d : List ℕ) (o : ByteOrder) : ℕ → ℕ → Option ℕ
  | _, 0 => none
  | pos, n + 1 =>
    if pos + 12 > d.length then none
    else if read_u16 d pos o = 34853 then some (read_u32 d (pos + 8) o)
    else findGpsLoop d o (pos + 12) n

/-- `find_gps_ifd_offset` from `gps_parser.rs`. -/
def find_gps_ifd_offset (d : List ℕ) (tiffStart ifdOffset : ℕ) (o : ByteOrder) :
    Option ℕ :=
  let ifdPos := tiffStart + ifdOffset
  if ifdPos + 2 > d.length then none
  else findGpsLoop d o (ifdPos + 2) (read_u16 d ifdPos o)

/-- Marker-segment loop of `find_exif_segment` (`gps_parser.rs`): walk
from `pos` while `pos + 4 < len`; a non-`0xFF` byte aborts with `none`;
an APP1 segment whose payload starts with `"Exif\0\0"` is returned;
otherwise skip by the declared big-endian length. -/
def findExifSegLoop (d : List ℕ) (pos : ℕ) : Option ℕ :=
  if h : pos + 4 < d.length then
    if byteAt d pos ≠ 255 then none
    else
      let marker := byteAt d (pos + 1)
      let segLen := 256 * byteAt d (pos + 2) + byteAt d (pos + 3)
      if marker = 225 ∧ pos + 10 < d.length ∧ bytesAt d (pos + 4) 6 = exifSig then
        some pos
      else findExifSegLoop d (pos + 2 + segLen)
  else none
termination_by d.length - pos
decreasing_by omega

/-- `find_exif_segment` from `gps_parser.rs`: requires the JPEG SOI
marker, then walks segments from offset 2. -/
def find_exif_segment (d : List ℕ) : Option ℕ :=
  if d.length < 4 ∨ ¬(byteAt d 0 = 255 ∧ byteAt d 1 = 216) then none
  else findExifSegLoop d 2

/-- TIFF byte-order detection: `"II"` or `"MM"`, else failure. -/
def byteOrderOf (b0 b1 : ℕ) : Option ByteOrder :=
  if b0 = 73 ∧ b1 = 73 then some .littleEndian
  else if b0 = 77 ∧ b1 = 77 then some .bigEndian
  else none

/-- `extract_gps_from_malformed_exif` from `gps_parser.rs`, minus the file
read: locate the APP1/EXIF segment, validate the TIFF header (byte order
and magic 42), read the IFD0 offset, find the GPS IFD pointer inside
IFD0's own entries and parse the GPS IFD there. -/
def extract_gps_from_malformed_exif (d : List ℕ) : Option (ℚ × ℚ) :=
  match find_exif_segment d with
  | none => none
  | some exifStart =>
    let tiffStart := exifStart + 10
    if tiffStart + 8 > d.length then none
    else
      match byteOrderOf (byteAt d tiffStart) (byteAt d (tiffStart + 1)) with
      | none => none
      | some o =>
        if read_u16 d (tiffStart + 2) o ≠ 42 then none
        else
          let ifd0Offset := read_u32 d (tiffStart + 4) o
          match find_gps_ifd_offset d tiffStart ifd0Offset o with
          | some gpsOffset => parse_gps_ifd d tiffStart gpsOffset o
          | none => none

/-!
## Model of the `exif` crate's parsed-dataset interface

`generic.rs` consumes a parsed `exif::Exif` value through `get_field`,
`fields`, the `Rational`/`SRational`/`Ascii` value variants, `to_f64` and
`display_value`.  The dataset is modelled as a list of fields, each a
(tag, directory index, value) triple; `get_field tag ifd` is the first
field with that tag and directory index, and `fields` is the list itself.
-/

/-- A parsed EXIF field value (the `exif::Value` variants the engine
inspects). -/
inductive ExifVal where
  | rational : List (ℕ × ℕ) → ExifVal
  | srational : List (ℤ × ℤ) → ExifVal
  | ascii : List (List ℕ) → ExifVal
  | otherVal : ExifVal
deriving DecidableEq

/-- A parsed EXIF field: tag number, directory index (`ifd_num`;
`In::PRIMARY` is 0) and value. -/
structure ExifField where
  tag : ℕ
  ifdNum : ℕ
  value : ExifVal
deriving DecidableEq

/-- A parsed EXIF dataset: the sequence of fields the crate exposes. -/
structure ExifData where
  fields : List ExifField
deriving DecidableEq

/-- `exif::Exif::get_field(tag, ifd)`: first field with the given tag and
directory index. -/
def getField (e : ExifData) (tag ifd : ℕ) : Option ExifField :=
  e.fields.find? (fun f => f.tag = tag ∧ f.ifdNum = ifd)

/-- First character of `display_value().to_string()`.  For an `Ascii`
value this is the first byte of the first string.  The crate renders the
other variants as numeric text whose first character is a digit or a
sign — never a hemisphere letter — so they are modelled by the digit `'0'`
(48), which is observably equivalent at the only consumer (the `'S'`/`'W'`
negation test). -/
def displayFirstByte : ExifVal → Option ℕ
  | .ascii ss => (ss.headD []).head?
  | .rational vs => if vs.isEmpty then none else some 48
  | .srational vs => if vs.isEmpty then none else some 48
  | .otherVal => some 48

/-- `exif::Rational::to_f64`: `num as f64 / denom as f64` (both `u32`,
hence exactly representable). -/
def ratToF64 (p : ℕ × ℕ) : EFloat := ediv (.finite p.1) (.finite p.2)

/-- `exif::SRational::to_f64`: `num as f64 / denom as f64` (both `i32`). -/
def sratToF64 (p : ℤ × ℤ) : EFloat := ediv (.finite p.1) (.finite p.2)

/-- The degree/minute/second combination `d + (m / 60.0) + (s / 3600.0)`
as written in `generic.rs`. -/
def dmsCombine (d m s : EFloat) : EFloat :=
  eadd (eadd d (ediv m (.finite 60))) (ediv s (.finite 3600))

/-- The coordinate-value dispatch of `get_gps_coord`/`try_get_gps_from_ifd`
(`generic.rs`): a `Rational` or `SRational` array of exactly three
elements converts to a decimal; anything else is rejected. -/
def resolveCoordValue : ExifVal → Option EFloat
  | .rational [p, q, r] => some (dmsCombine (ratToF64 p) (ratToF64 q) (ratToF64 r))
  | .srational [p, q, r] => some (dmsCombine (sratToF64 p) (sratToF64 q) (sratToF64 r))
  | _ => none

/-- The reference application of `generic.rs`: negate when the first
displayed character of the reference value is `'S'` (83) or `'W'` (87);
an absent first character leaves the value unchanged. -/
def applyRef (x : EFloat) (refVal : ExifVal) : EFloat :=
  match displayFirstByte refVal with
  | some c => if c = 83 ∨ c = 87 then eneg x else x
  | none => x

/-- `try_get_gps_from_ifd` from `generic.rs`: both the coordinate and the
reference field must be present in the requested directory; the
coordinate value must be a 3-element (S)Rational. -/
def try_get_gps_from_ifd (e : ExifData) (coordTag refTag ifd : ℕ) :
    Option EFloat :=
  match getField e coordTag ifd, getField e refTag ifd with
  | some coord, some refField =>
      (resolveCoordValue coord.value).map (fun x => applyRef x refField.value)
  | _, _ => none

/-- First field with the given tag in the given directory — the inner
reference search of `get_gps_coord`'s all-directories fallback loop. -/
def findRefField (fields : List ExifField) (refTag ifd : ℕ) : Option ExifField :=
  fields.find? (fun g => g.tag = refTag ∧ g.ifdNum = ifd)

/-- The all-directories fallback loop of `get_gps_coord` (`generic.rs`):
for each field with the coordinate tag, look for a reference field with
the same directory index; return on the first coordinate field whose
value resolves and whose directory has a reference.  (In the source the
resolution is retried for each matching reference field, but its success does
not depend on the reference, so returning at the first matching reference
is observably identical.) -/
def fallbackScan (fields allFields : List ExifField) (coordTag refTag : ℕ) :
    Option EFloat :=
  match fields with
  | [] => none
  | f :: rest =>
    if f.tag = coordTag then
      match findRefField allFields refTag f.ifdNum, resolveCoordValue f.value with
      | some refField, some x => some (applyRef x refField.value)
      | _, _ => fallbackScan rest allFields coordTag refTag
    else fallbackScan rest allFields coordTag refTag

/-- `get_gps_coord` from `src/src/exif_parser/generic.rs`: try the primary
directory first, then scan all fields. -/
def get_gps_coord (e : ExifData) (coordTag refTag : ℕ) : Option EFloat :=
  match try_get_gps_from_ifd e coordTag refTag 0 with
  | some x => some x
  | none => fallbackScan e.fields e.fields coordTag refTag

/-- A parsed calendar date-time (the payload of `DateTime<Utc>`). -/
structure DateTimeVal where
  year : ℕ
  month : ℕ
  day : ℕ
  hour : ℕ
  minute : ℕ
  second : ℕ
deriving DecidableEq

/-- `s.replace(" ", "T")` on a byte string. -/
def replaceSpaceByT (s : List ℕ) : List ℕ :=
  s.map (fun b => if b = 32 then 84 else b)

/-- `s.replacen(":", "-", k)` on a byte string: replace the first `k`
colons by hyphens. -/
def replaceColons : ℕ → List ℕ → List ℕ
  | _, [] => []
  | 0, l => l
  | k + 1, b :: rest =>
      if b = 58 then 45 :: replaceColons k rest
      else b :: replaceColons (k + 1) rest

/-- ASCII decimal digit test. -/
def isDigit (b : ℕ) : Bool := 48 ≤ b ∧ b ≤ 57

/-- Numeric value of an ASCII digit. -/
def digitVal (b : ℕ) : ℕ := b - 48

/-- Modelled from the spec: the external `chrono`
`NaiveDateTime::parse_from_str` call with format `"%Y-%m-%dT%H:%M:%S"`
(the crate itself is not part of this repository).  The spec gives the
accepted shape as `YYYY:MM:DD HH:MM:SS` after the munging done in
`get_datetime_from_exif`; modelled as an exact 19-byte shape with digit
and calendar-range checks. -/
def parseMungedDatetime (s : List ℕ) : Option DateTimeVal :=
  match s with
  | [y1, y2, y3, y4, 45, m1, m2, 45, d1, d2, 84, h1, h2, 58, i1, i2, 58, s1, s2] =>
      if isDigit y1 ∧ isDigit y2 ∧ isDigit y3 ∧ isDigit y4 ∧ isDigit m1 ∧
          isDigit m2 ∧ isDigit d1 ∧ isDigit d2 ∧ isDigit h1 ∧ isDigit h2 ∧
          isDigit i1 ∧ isDigit i2 ∧ isDigit s1 ∧ isDigit s2 then
        let mo := 10 * digitVal m1 + digitVal m2
        let da := 10 * digitVal d1 + digitVal d2
        let ho := 10 * digitVal h1 + digitVal h2
        let mi := 10 * digitVal i1 + digitVal i2
        let se := 10 * digitVal s1 + digitVal s2
        if 1 ≤ mo ∧ mo ≤ 12 ∧ 1 ≤ da ∧ da ≤ 31 ∧ ho ≤ 23 ∧ mi ≤ 59 ∧ se ≤ 59 then
          some ⟨1000 * digitVal y1 + 100 * digitVal y2 + 10 * digitVal y3 +
            digitVal y4, mo, da, ho, mi, se⟩
        else none
      else none
  | _ => none

/-- The per-tag attempt inside `get_datetime_from_exif` (`generic.rs`):
the field must come from the primary directory, be `Ascii`, have a first
string, and that string (after `replace(" ", "T")` and
`replacen(":", "-", 2)`) must parse. -/
def datetimeFromTag (e : ExifData) (tag : ℕ) : Option DateTimeVal :=
  match getField e tag 0 with
  | some f =>
    match f.value with
    | .ascii (s :: _) => parseMungedDatetime (replaceColons 2 (replaceSpaceByT s))
    | _ => none
  | none => none

/-- `DateTimeOriginal` tag number. -/
def dateTimeOriginalTag : ℕ := 36867

/-- `DateTime` tag number. -/
def dateTimeTag : ℕ := 306

/-- `get_datetime_from_exif` from `src/src/exif_parser/generic.rs`: try
`DateTimeOriginal` then `DateTime`, both only in the primary directory. -/
def get_datetime_from_exif (e : ExifData) : Option DateTimeVal :=
  match datetimeFromTag e dateTimeOriginalTag with
  | some dt => some dt
  | none => datetimeFromTag e dateTimeTag

/-- GPS tag numbers (`GPSLatitudeRef`, `GPSLatitude`, `GPSLongitudeRef`,
`GPSLongitude`). -/
def gpsLatRefTag : ℕ := 1
def gpsLatTag : ℕ := 2
def gpsLonRefTag : ℕ := 3
def gpsLonTag : ℕ := 4

/-!
## The HEIF adapter (`heic.rs`) and the custom JPEG scanner (`jpeg.rs`)
-/

/-- The TIFF-blob start selection of `extract_metadata_from_heic`
(`heic.rs` lines 39–45): offset 10 when the block is longer than 4 bytes
and bytes 4..10 are `"Exif\0\0"`, else 6 when the block starts with
`"Exif\0\0"`, else 0. -/
def heicTiffHeaderStart (d : List ℕ) : ℕ :=
  if d.length > 4 ∧ bytesAt d 4 6 = exifSig then 10
  else if bytesAt d 0 6 = exifSig then 6
  else 0

/-- The claim's version of the HEIF prefix selection, written from the
spec's words for comparison with `heicTiffHeaderStart`: try candidate
offsets 0, then 6, then 10, and use the first one followed immediately by
a TIFF byte-order marker (`"II"` or `"MM"`). -/
def specHeicTiffHeaderStart (d : List ℕ) : Option ℕ :=
  [0, 6, 10].find? (fun o => (byteOrderOf (byteAt d o) (byteAt d (o + 1))).isSome)

/-- The per-block emission of `extract_metadata_from_heic` (`heic.rs`
lines 47–57) given the parsed dataset of the block: a pair is produced
only when both latitude and longitude resolve. -/
def heicEmitFromExif (e : ExifData) : Option (EFloat × EFloat × Option DateTimeVal) :=
  match get_gps_coord e gpsLatTag gpsLatRefTag,
      get_gps_coord e gpsLonTag gpsLonRefTag with
  | some la, some lo => some (la, lo, get_datetime_from_exif e)
  | _, _ => none

/-- The emission step of `extract_metadata_from_jpeg_custom` (`jpeg.rs`
lines 40–47) given the parsed dataset of the APP1 segment. -/
def jpegEmitFromExif (e : ExifData) : Option (EFloat × EFloat) :=
  match get_gps_coord e gpsLatTag gpsLatRefTag,
      get_gps_coord e gpsLonTag gpsLonRefTag with
  | some la, some lo => some (la, lo)
  | _, _ => none

/-- Outcome of the custom JPEG scanner: GPS pair found, nothing found, or
a Rust panic from the unchecked slice `data[exif_start..segment_end]`
(which panics when the end exceeds the buffer or precedes the start). -/
inductive JpegScanOutcome where
  | found : EFloat → EFloat → JpegScanOutcome
  | notFound : JpegScanOutcome
  | sliceOutOfBounds : JpegScanOutcome
deriving DecidableEq

/-- Is a TIFF byte-order marker (`II` or `MM`) at position `p`? -/
def isTiffMarkerAt (d : List ℕ) (p : ℕ) : Prop :=
  (byteAt d p = 73 ∧ byteAt d (p + 1) = 73) ∨
    (byteAt d p = 77 ∧ byteAt d (p + 1) = 77)

instance (d : List ℕ) (p : ℕ) : Decidable (isTiffMarkerAt d p) := by
  unfold isTiffMarkerAt; infer_instance

/-- The segment loop of `extract_metadata_from_jpeg_custom` (`jpeg.rs`
lines 12–64).  `parseRaw` stands for `exif::Reader::read_raw` on the
sliced segment (an external crate); the loop's control flow, bounds
checks and the unchecked slice are modelled bit-for-bit.  The slice
`data[exif_start..segment_end]` is taken with no bounds check in the
source, so the out-of-bounds case is an explicit outcome. -/
def jpegScanLoop (parseRaw : List ℕ → Option ExifData) (d : List ℕ) (i : ℕ) :
    JpegScanOutcome :=
  if h : i < d.length - 4 then
    if byteAt d i ≠ 255 then jpegScanLoop parseRaw d (i + 1)
    else
      let marker := byteAt d (i + 1)
      if marker = 225 then
        let segLen := 256 * byteAt d (i + 2) + byteAt d (i + 3)
        if i + 10 < d.length ∧ bytesAt d (i + 4) 6 = exifSig then
          let exifStart := i + 10
          if exifStart + 2 < d.length ∧ isTiffMarkerAt d exifStart then
            if i + segLen + 2 > d.length ∨ i + segLen + 2 < exifStart then
              .sliceOutOfBounds
            else
              match parseRaw (bytesAt d exifStart (i + segLen + 2 - exifStart)) with
              | some e =>
                match jpegEmitFromExif e with
                | some (la, lo) => .found la lo
                | none => jpegScanLoop parseRaw d (i + segLen + 2)
              | none => jpegScanLoop parseRaw d (i + segLen + 2)
          else jpegScanLoop parseRaw d (i + segLen + 2)
        else jpegScanLoop parseRaw d (i + segLen + 2)
      else if (224 ≤ marker ∧ marker ≤ 239) ∨ marker = 219 ∨ marker = 196 ∨
          marker = 192 then
        let segLen := 256 * byteAt d (i + 2) + byteAt d (i + 3)
        jpegScanLoop parseRaw d (i + segLen + 2)
      else if marker = 218 then .notFound
      else jpegScanLoop parseRaw d (i + 1)
  else .notFound
termination_by d.length - i
decreasing_by all_goals omega

/-- `extract_metadata_from_jpeg_custom` from `src/src/exif_parser/jpeg.rs`
(minus the file read): scan marker segments starting after the SOI
marker. -/
def extract_metadata_from_jpeg_custom (parseRaw : List ℕ → Option ExifData)
    (d : List ℕ) : JpegScanOutcome :=
  jpegScanLoop parseRaw d 2

/-!
## Concrete inputs used by counterexamples and witnesses
-/

/-- A 15-byte JPEG: SOI, then an APP1 segment whose declared big-endian
length `0xFFFF` extends far past the end of the buffer, with a valid
`"Exif\0\0"` payload and a little-endian TIFF marker. -/
def c1FailBuf : List ℕ :=
  [255, 216, 255, 225, 255, 255, 69, 120, 105, 102, 0, 0, 73, 73, 42]

/-- A dataset whose latitude field is a 3-rational in the primary
directory with an `'N'` reference, degrees `n/1`, minutes and seconds
zero. -/
def latOnlyData (n : ℕ) : ExifData :=
  ⟨[⟨gpsLatTag, 0, .rational [(n, 1), (0, 1), (0, 1)]⟩,
    ⟨gpsLatRefTag, 0, .ascii [[78]]⟩]⟩

/-- A dataset with latitude 200° N and longitude 300° E — both far out of
range. -/
def outOfRangeData : ExifData :=
  ⟨[⟨gpsLatTag, 0, .rational [(200, 1), (0, 1), (0, 1)]⟩,
    ⟨gpsLatRefTag, 0, .ascii [[78]]⟩,
    ⟨gpsLonTag, 0, .rational [(300, 1), (0, 1), (0, 1)]⟩,
    ⟨gpsLonRefTag, 0, .ascii [[69]]⟩]⟩

/-- A dataset whose latitude degrees rational is `1/0` (zero denominator)
with an `'N'` reference, plus a valid longitude of 2° E. -/
def zeroDenData : ExifData :=
  ⟨[⟨gpsLatTag, 0, .rational [(1, 0), (0, 1), (0, 1)]⟩,
    ⟨gpsLatRefTag, 0, .ascii [[78]]⟩,
    ⟨gpsLonTag, 0, .rational [(2, 1), (0, 1), (0, 1)]⟩,
    ⟨gpsLonRefTag, 0, .ascii [[69]]⟩]⟩

/-- A dataset with latitude degrees `n/0` (zero denominator), `'N'`
reference. -/
def zeroDenLatData (n : ℕ) : ExifData :=
  ⟨[⟨gpsLatTag, 0, .rational [(n, 0), (0, 1), (0, 1)]⟩,
    ⟨gpsLatRefTag, 0, .ascii [[78]]⟩]⟩

/-- A 24-byte all-zero buffer: at offset 0 every rational, including
every denominator, reads as zero. -/
def zeroDenBuf : List ℕ := List.replicate 24 0

/-- A dataset with a resolvable latitude and no latitude-reference field
at all. -/
def noRefData : ExifData :=
  ⟨[⟨gpsLatTag, 0, .rational [(5, 1), (0, 1), (0, 1)]⟩]⟩

/-- A GPS IFD image (TIFF anchored at 0, GPS IFD at offset 8): two
entries, latitude `(10,1),(0,1),(0,1)` at value-offset 34 and longitude
`(20,1),(0,1),(0,1)` at value-offset 58 — and no reference entries. -/
def gpsNoRefBuf : List ℕ :=
  [0, 0, 0, 0, 0, 0, 0, 0,
   2, 0,
   2, 0, 5, 0, 3, 0, 0, 0, 34, 0, 0, 0,
   4, 0, 5, 0, 3, 0, 0, 0, 58, 0, 0, 0,
   10, 0, 0, 0, 1, 0, 0, 0, 0, 0, 0, 0, 1, 0, 0, 0, 0, 0, 0, 0, 1, 0, 0, 0,
   20, 0, 0, 0, 1, 0, 0, 0, 0, 0, 0, 0, 1, 0, 0, 0, 0, 0, 0, 0, 1, 0, 0, 0]

/-- A GPS IFD image (TIFF anchored at 0, GPS IFD at offset 8) with a
single latitude entry at value-offset 22 and no longitude. -/
def gpsLatOnlyBuf : List ℕ :=
  [0, 0, 0, 0, 0, 0, 0, 0,
   1, 0,
   2, 0, 5, 0, 3, 0, 0, 0, 22, 0, 0, 0,
   5, 0, 0, 0, 1, 0, 0, 0, 0, 0, 0, 0, 1, 0, 0, 0, 0, 0, 0, 0, 1, 0, 0, 0]

/-- A dataset with only a resolvable latitude (5° N) and no longitude
field. -/
def latNoLonData : ExifData :=
  ⟨[⟨gpsLatTag, 0, .rational [(5, 1), (0, 1), (0, 1)]⟩,
    ⟨gpsLatRefTag, 0, .ascii [[78]]⟩]⟩

/-- The Paris example of the claim: (48°, 52′, 30″) N and (2°, 21′, 6″) E
in the primary directory. -/
def parisData : ExifData :=
  ⟨[⟨gpsLatTag, 0, .rational [(48, 1), (52, 1), (30, 1)]⟩,
    ⟨gpsLatRefTag, 0, .ascii [[78]]⟩,
    ⟨gpsLonTag, 0, .rational [(2, 1), (21, 1), (6, 1)]⟩,
    ⟨gpsLonRefTag, 0, .ascii [[69]]⟩]⟩

/-- An IFD0 image anchored at 0 (IFD offset 0): one entry holding the
GPS-IFD-pointer tag `0x8825` with value-offset 100, followed by a zeroed
next-IFD link. -/
def ifd0CleanLinkBuf : List ℕ :=
  [1, 0,
   37, 136, 4, 0, 1, 0, 0, 0, 100, 0, 0, 0,
   0, 0, 0, 0]

/-- The same IFD0 image with the next-IFD link corrupted to garbage. -/
def ifd0DirtyLinkBuf : List ℕ :=
  [1, 0,
   37, 136, 4, 0, 1, 0, 0, 0, 100, 0, 0, 0,
   222, 173, 190, 239]

/-- An SRational coordinate/reference pair living in directory 3 and
nothing in the primary directory. -/
def srationalIfd3Data : ExifData :=
  ⟨[⟨gpsLatTag, 3, .srational [((30 : ℤ), 1), (0, 1), (0, 1)]⟩,
    ⟨gpsLatRefTag, 3, .ascii [[83]]⟩]⟩

/-- The bytes of `"2023:05:01 12:30:00"`. -/
def datetimeBytes : List ℕ :=
  [50, 48, 50, 51, 58, 48, 53, 58, 48, 49, 32, 49, 50, 58, 51, 48, 58, 48, 48]

/-- A dataset whose `DateTimeOriginal` and GPS fields all live in
directory 1, with nothing in the primary directory. -/
def nonPrimaryDatetimeData : ExifData :=
  ⟨[⟨dateTimeOriginalTag, 1, .ascii [datetimeBytes]⟩,
    ⟨gpsLatTag, 1, .rational [(5, 1), (0, 1), (0, 1)]⟩,
    ⟨gpsLatRefTag, 1, .ascii [[78]]⟩]⟩

/-- A HEIF metadata block that starts with a valid little-endian TIFF
header at offset 0 but also carries `"Exif\0\0"` at bytes 4..10. -/
def heicAmbiguousBuf : List ℕ :=
  [73, 73, 42, 0, 69, 120, 105, 102, 0, 0, 73, 73, 42, 0]

/-!
## Theorems
-/

/-- C1: the claim says every strategy performs only bounds-checked reads
and in particular the custom JPEG scanner must not panic when an APP1
segment's declared length extends past the buffer.  The code violates
this: on `c1FailBuf` the scanner reaches the unchecked slice
`data[exif_start..segment_end]` with `segment_end = 65539` on a 15-byte
buffer, a Rust panic — for every possible behaviour of the downstream
EXIF parser, since the slice precedes it. -/
theorem C1_jpeg_scanner_slice_out_of_bounds
    (parseRaw : List ℕ → Option ExifData) :
    extract_metadata_from_jpeg_custom parseRaw c1FailBuf = .sliceOutOfBounds := by
  rw [extract_metadata_from_jpeg_custom, jpegScanLoop]
  norm_num [c1FailBuf, byteAt, bytesAt, exifSig, isTiffMarkerAt]

/-- Division of finite values with a nonzero divisor stays finite. -/
theorem ediv_finite_of_ne (x y : ℚ) (hy : y ≠ 0) :
    ediv (.finite x) (.finite y) = .finite (x / y) := by
  simp [ediv, hy]

/-- The degree/minute/second combination of finite values. -/
theorem dmsCombine_finite (a b c : ℚ) :
    dmsCombine (.finite a) (.finite b) (.finite c) =
      .finite (a + b / 60 + c / 3600) := by
  norm_num [dmsCombine, ediv, eadd]

/-- C2: (i) for a coordinate field of exactly three rationals with
nonzero denominators and a present one-character reference, both in the
primary directory, `get_gps_coord` returns
`d_num/d_den + (m_num/m_den)/60 + (s_num/s_den)/3600`, negated exactly
when the reference character is `'S'` (83) or `'W'` (87); (ii) the
fallback reader `read_gps_coordinate` computes the same formula from the
six 32-bit fields it reads. -/
theorem C2_gps_resolver_dms_formula :
    (∀ (e : ExifData) (coordTag refTag : ℕ) (p q r : ℕ × ℕ) (c : ℕ),
      getField e coordTag 0 = some ⟨coordTag, 0, .rational [p, q, r]⟩ →
      getField e refTag 0 = some ⟨refTag, 0, .ascii [[c]]⟩ →
      p.2 ≠ 0 → q.2 ≠ 0 → r.2 ≠ 0 →
      get_gps_coord e coordTag refTag =
        some (.finite (if c = 83 ∨ c = 87
          then -((p.1 : ℚ) / p.2 + ((q.1 : ℚ) / q.2) / 60 +
            ((r.1 : ℚ) / r.2) / 3600)
          else (p.1 : ℚ) / p.2 + ((q.1 : ℚ) / q.2) / 60 +
            ((r.1 : ℚ) / r.2) / 3600))) ∧
    (∀ (d : List ℕ) (tiffStart offset : ℕ) (o : ByteOrder),
      tiffStart + offset + 24 ≤ d.length →
      read_u32 d (tiffStart + offset + 4) o ≠ 0 →
      read_u32 d (tiffStart + offset + 12) o ≠ 0 →
      read_u32 d (tiffStart + offset + 20) o ≠ 0 →
      read_gps_coordinate d tiffStart offset o =
        some ((read_u32 d (tiffStart + offset) o : ℚ) /
            read_u32 d (tiffStart + offset + 4) o +
          ((read_u32 d (tiffStart + offset + 8) o : ℚ) /
            read_u32 d (tiffStart + offset + 12) o) / 60 +
          ((read_u32 d (tiffStart + offset + 16) o : ℚ) /
            read_u32 d (tiffStart + offset + 20) o) / 3600)) := by
  constructor
  · intro e coordTag refTag p q r c hc hr hp hq hs
    have hp' : ((p.2 : ℕ) : ℚ) ≠ 0 := Nat.cast_ne_zero.mpr hp
    have hq' : ((q.2 : ℕ) : ℚ) ≠ 0 := Nat.cast_ne_zero.mpr hq
    have hs' : ((r.2 : ℕ) : ℚ) ≠ 0 := Nat.cast_ne_zero.mpr hs
    simp only [get_gps_coord, try_get_gps_from_ifd, hc, hr, resolveCoordValue,
      ratToF64]
    rw [ediv_finite_of_ne _ _ hp', ediv_finite_of_ne _ _ hq',
      ediv_finite_of_ne _ _ hs', dmsCombine_finite]
    simp only [Option.map_some', applyRef, displayFirstByte, List.headD,
      List.head?]
    by_cases h83 : c = 83 ∨ c = 87
    · simp [h83, eneg]
    · simp [h83]
  · intro d ts off o hlen h1 h2 h3
    simp only [read_gps_coordinate]
    rw [if_neg (by omega), if_neg (by simp [h1, h2, h3])]

/-- C2 witness: the Paris example, (48°, 52′, 30″) N and (2°, 21′, 6″) E
resolve to 48.875 and 2.351666…, each within 1e-6 of the claim's quoted
values. -/
theorem C2_gps_resolver_dms_formula_witness :
    get_gps_coord parisData gpsLatTag gpsLatRefTag = some (.finite (391 / 8)) ∧
    get_gps_coord parisData gpsLonTag gpsLonRefTag = some (.finite (1411 / 600)) ∧
    |(391 / 8 : ℚ) - 48875 / 1000| ≤ 1 / 1000000 ∧
    |(1411 / 600 : ℚ) - 2351667 / 1000000| ≤ 1 / 1000000 := by
  refine ⟨?_, ?_, by norm_num [abs_le], by norm_num [abs_le]⟩
  · have h := C2_gps_resolver_dms_formula.1 parisData gpsLatTag gpsLatRefTag
      (48, 1) (52, 1) (30, 1) 78 rfl rfl (by norm_num) (by norm_num) (by norm_num)
    rw [h]; norm_num
  · have h := C2_gps_resolver_dms_formula.1 parisData gpsLonTag gpsLonRefTag
      (2, 1) (21, 1) (6, 1) 69 rfl rfl (by norm_num) (by norm_num) (by norm_num)
    rw [h]; norm_num

/-- C3: on all three emission paths — the custom JPEG scanner, the HEIF
adapter and the malformed-EXIF fallback scanner — a coordinate pair is
emitted only when both latitude and longitude resolve in the same
attempt; if either side is missing the attempt yields nothing. -/
theorem C3_emit_only_both_coordinates :
    (∀ e : ExifData,
      get_gps_coord e gpsLatTag gpsLatRefTag = none ∨
        get_gps_coord e gpsLonTag gpsLonRefTag = none →
      jpegEmitFromExif e = none) ∧
    (∀ e : ExifData,
      get_gps_coord e gpsLatTag gpsLatRefTag = none ∨
        get_gps_coord e gpsLonTag gpsLonRefTag = none →
      heicEmitFromExif e = none) ∧
    (∀ (d : List ℕ) (tiffStart gpsOffset : ℕ) (o : ByteOrder),
      (gpsScanResult d tiffStart gpsOffset o).lat = none ∨
        (gpsScanResult d tiffStart gpsOffset o).lon = none →
      parse_gps_ifd d tiffStart gpsOffset o = none) := by
  refine ⟨?_, ?_, ?_⟩
  · intro e h
    rcases h with h | h
    · cases ho : get_gps_coord e gpsLonTag gpsLonRefTag <;>
        simp [jpegEmitFromExif, h, ho]
    · cases ho : get_gps_coord e gpsLatTag gpsLatRefTag <;>
        simp [jpegEmitFromExif, h, ho]
  · intro e h
    rcases h with h | h
    · cases ho : get_gps_coord e gpsLonTag gpsLonRefTag <;>
        simp [heicEmitFromExif, h, ho]
    · cases ho : get_gps_coord e gpsLatTag gpsLatRefTag <;>
        simp [heicEmitFromExif, h, ho]
  · intro d tiffStart gpsOffset o h
    unfold parse_gps_ifd
    split
    · rfl
    · rcases h with h | h
      · cases ho : (gpsScanResult d tiffStart gpsOffset o).lon <;>
          simp [h, ho]
      · cases ho : (gpsScanResult d tiffStart gpsOffset o).lat <;>
          simp [h, ho]

/-- C3 witness: a dataset with a resolvable latitude and no longitude
emits nothing on the JPEG and HEIF paths, and a GPS IFD image with only a
latitude entry emits nothing on the fallback path. -/
theorem C3_emit_only_both_coordinates_witness :
    jpegEmitFromExif latNoLonData = none ∧
    heicEmitFromExif latNoLonData = none ∧
    parse_gps_ifd gpsLatOnlyBuf 0 8 .littleEndian = none := by
  refine ⟨C3_emit_only_both_coordinates.1 latNoLonData (Or.inr (by decide)),
    C3_emit_only_both_coordinates.2.1 latNoLonData (Or.inr (by decide)),
    C3_emit_only_both_coordinates.2.2 gpsLatOnlyBuf 0 8 .littleEndian
      (Or.inr (by decide))⟩

/-- C4 counterexample: a latitude field whose degrees rational is `1/0`
is not treated as absent on the standard resolver path — the emission to
the caller contains positive infinity. -/
theorem C4_zero_denominator_counterexample :
    jpegEmitFromExif zeroDenData = some (.posInf, .finite 2) ∧
    EFloat.posInf.isFiniteVal = false := by
  refine ⟨?_, rfl⟩
  norm_num [jpegEmitFromExif, get_gps_coord, try_get_gps_from_ifd, getField,
    zeroDenData, List.find?, gpsLatTag, gpsLatRefTag, gpsLonTag, gpsLonRefTag,
    resolveCoordValue, ratToF64, ediv, dmsCombine, eadd, applyRef,
    displayFirstByte]

/-- C4 (amended): on the malformed-EXIF fallback path a zero denominator
does yield an absent coordinate; but `get_gps_coord` performs no
denominator check, and a zero denominator there produces a nonfinite
value (`+∞` for a positive numerator) that is returned as a present
coordinate. -/
theorem C4_zero_denominator_paths :
    (∀ (d : List ℕ) (tiffStart offset : ℕ) (o : ByteOrder),
      tiffStart + offset + 24 ≤ d.length →
      (read_u32 d (tiffStart + offset + 4) o = 0 ∨
        read_u32 d (tiffStart + offset + 12) o = 0 ∨
        read_u32 d (tiffStart + offset + 20) o = 0) →
      read_gps_coordinate d tiffStart offset o = none) ∧
    (∀ n : ℕ, 0 < n →
      get_gps_coord (zeroDenLatData n) gpsLatTag gpsLatRefTag =
        some .posInf) := by
  constructor
  · intro d ts off o hlen hz
    simp only [read_gps_coordinate]
    rw [if_neg (by omega), if_pos hz]
  · intro n hn
    have hpos : (0 : ℚ) < n := by exact_mod_cast hn
    simp [get_gps_coord, try_get_gps_from_ifd, getField, zeroDenLatData,
      List.find?, gpsLatTag, gpsLatRefTag, resolveCoordValue, ratToF64,
      ediv, dmsCombine, eadd, applyRef, displayFirstByte, hpos, hpos.ne']

/-- C4 witness: a concrete all-zero rational block is rejected by the
fallback reader, while the standard resolver emits `+∞` for degrees
`1/0`. -/
theorem C4_zero_denominator_paths_witness :
    read_gps_coordinate zeroDenBuf 0 0 .littleEndian = none ∧
    get_gps_coord (zeroDenLatData 1) gpsLatTag gpsLatRefTag = some .posInf :=
  ⟨C4_zero_denominator_paths.1 zeroDenBuf 0 0 .littleEndian (by decide)
      (by decide),
    C4_zero_denominator_paths.2 1 (by decide)⟩

/-- The all-directories fallback loop finds nothing when no field
carries the reference tag. -/
theorem fallbackScan_eq_none_of_no_ref (fields all : List ExifField)
    (coordTag refTag : ℕ) (h : ∀ f ∈ all, f.tag ≠ refTag) :
    fallbackScan fields all coordTag refTag = none := by
  induction fields with
  | nil => rfl
  | cons a rest ih =>
    have hf : findRefField all refTag a.ifdNum = none :=
      List.find?_eq_none.mpr (fun g hg => by simp [h g hg])
    by_cases ht : a.tag = coordTag <;> simp [fallbackScan, ht, hf, ih]

/-- C5 counterexample: a GPS IFD carrying latitude and longitude values
but neither hemisphere-reference tag still makes the malformed-EXIF
fallback scanner emit a coordinate pair — the hemisphere sign is
defaulted to positive rather than the coordinate being treated as
absent. -/
theorem C5_missing_reference_counterexample :
    (gpsScanResult gpsNoRefBuf 0 8 .littleEndian).latRef = none ∧
    (gpsScanResult gpsNoRefBuf 0 8 .littleEndian).lonRef = none ∧
    (parse_gps_ifd gpsNoRefBuf 0 8 .littleEndian).isSome = true := by
  decide

/-- C5 (amended): on the standard resolver path a missing
hemisphere-reference tag does make the coordinate absent (both in the
primary lookup and in the all-directories fallback); but the
malformed-EXIF fallback scanner emits a resolved latitude/longitude pair
even when both reference tags are absent, leaving the signs positive. -/
theorem C5_missing_reference_paths :
    (∀ (e : ExifData) (coordTag refTag : ℕ),
      (∀ f ∈ e.fields, f.tag ≠ refTag) →
      get_gps_coord e coordTag refTag = none) ∧
    (∀ (d : List ℕ) (tiffStart gpsOffset : ℕ) (o : ByteOrder) (a b : ℚ),
      tiffStart + gpsOffset + 2 ≤ d.length →
      (gpsScanResult d tiffStart gpsOffset o).lat = some a →
      (gpsScanResult d tiffStart gpsOffset o).lon = some b →
      (gpsScanResult d tiffStart gpsOffset o).latRef = none →
      (gpsScanResult d tiffStart gpsOffset o).lonRef = none →
      parse_gps_ifd d tiffStart gpsOffset o = some (a, b)) := by
  constructor
  · intro e coordTag refTag h
    have hre : getField e refTag 0 = none :=
      List.find?_eq_none.mpr (fun g hg => by simp [h g hg])
    have ht : try_get_gps_from_ifd e coordTag refTag 0 = none := by
      cases hc : getField e coordTag 0 <;>
        simp [try_get_gps_from_ifd, hc, hre]
    simp [get_gps_coord, ht, fallbackScan_eq_none_of_no_ref e.fields e.fields
      coordTag refTag h]
  · intro d ts g o a b hlen hlat hlon hlatRef hlonRef
    simp only [parse_gps_ifd]
    rw [if_neg (by omega)]
    simp only [hlat, hlon, hlatRef, hlonRef]
    simp

/-- C5 witness: with no latitude-reference field the standard resolver
yields nothing, while the fallback scanner still emits a pair for
`gpsNoRefBuf`. -/
theorem C5_missing_reference_paths_witness :
    get_gps_coord noRefData gpsLatTag gpsLatRefTag = none ∧
    (parse_gps_ifd gpsNoRefBuf 0 8 .littleEndian).isSome = true := by
  constructor
  · exact C5_missing_reference_paths.1 noRefData gpsLatTag gpsLatRefTag
      (by decide)
  · obtain ⟨a, ha⟩ := Option.isSome_iff_exists.mp
      (show (gpsScanResult gpsNoRefBuf 0 8 .littleEndian).lat.isSome by decide)
    obtain ⟨b, hb⟩ := Option.isSome_iff_exists.mp
      (show (gpsScanResult gpsNoRefBuf 0 8 .littleEndian).lon.isSome by decide)
    rw [C5_missing_reference_paths.2 gpsNoRefBuf 0 8 .littleEndian a b
      (by decide) ha hb (by decide) (by decide)]
    rfl

/-- C6 counterexample: latitude 200° and longitude 300° — both out of
range — are resolved and handed to the caller unchanged instead of being
treated as absent. -/
theorem C6_out_of_range_counterexample :
    jpegEmitFromExif outOfRangeData = some (.finite 200, .finite 300) ∧
    (90 : ℚ) < 200 ∧ (180 : ℚ) < 300 := by
  refine ⟨?_, by norm_num, by norm_num⟩
  norm_num [jpegEmitFromExif, get_gps_coord, try_get_gps_from_ifd, getField,
    outOfRangeData, List.find?, gpsLatTag, gpsLatRefTag, gpsLonTag,
    gpsLonRefTag, resolveCoordValue, ratToF64, ediv, dmsCombine, eadd,
    applyRef, displayFirstByte]

/-- C6 (amended): no extraction path range-checks a resolved coordinate;
`get_gps_coord` returns the resolved decimal unchanged for every
magnitude, including magnitudes beyond 90 or 180. -/
theorem C6_no_range_check (n : ℕ) :
    get_gps_coord (latOnlyData n) gpsLatTag gpsLatRefTag =
      some (.finite n) := by
  norm_num [get_gps_coord, try_get_gps_from_ifd, getField, latOnlyData,
    List.find?, gpsLatTag, gpsLatRefTag, resolveCoordValue, ratToF64, ediv,
    dmsCombine, eadd, applyRef, displayFirstByte]

/-- A 16-bit read is determined by the bytes below any bound covering
it. -/
theorem read_u16_congr (d1 d2 : List ℕ) (p B : ℕ) (o : ByteOrder)
    (h : ∀ j, j < B → byteAt d1 j = byteAt d2 j) (hp : p + 2 ≤ B) :
    read_u16 d1 p o = read_u16 d2 p o := by
  cases o <;>
    simp [read_u16, h p (by omega), h (p + 1) (by omega)]

/-- A 32-bit read is determined by the bytes below any bound covering
it. -/
theorem read_u32_congr (d1 d2 : List ℕ) (p B : ℕ) (o : ByteOrder)
    (h : ∀ j, j < B → byteAt d1 j = byteAt d2 j) (hp : p + 4 ≤ B) :
    read_u32 d1 p o = read_u32 d2 p o := by
  cases o <;>
    simp [read_u32, h p (by omega), h (p + 1) (by omega), h (p + 2) (by omega),
      h (p + 3) (by omega)]

/-- The GPS-pointer entry loop reads only bytes strictly below
`pos + 12 * n`: two same-length buffers agreeing there give the same
result. -/
theorem findGpsLoop_congr (d1 d2 : List ℕ) (o : ByteOrder) :
    ∀ (n pos : ℕ), d1.length = d2.length →
    (∀ j, j < pos + 12 * n → byteAt d1 j = byteAt d2 j) →
    findGpsLoop d1 o pos n = findGpsLoop d2 o pos n := by
  intro n
  induction n with
  | zero => intro pos _ _; rfl
  | succ m ih =>
    intro pos hlen hag
    have h16 : read_u16 d1 pos o = read_u16 d2 pos o :=
      read_u16_congr d1 d2 pos (pos + 12 * (m + 1)) o hag (by omega)
    have h32 : read_u32 d1 (pos + 8) o = read_u32 d2 (pos + 8) o :=
      read_u32_congr d1 d2 (pos + 8) (pos + 12 * (m + 1)) o hag (by omega)
    simp only [findGpsLoop, hlen, h16, h32]
    split_ifs
    · rfl
    · rfl
    · exact ih (pos + 12) hlen (fun j hj => hag j (by omega))

/-- A successful GPS-pointer search names the first entry with tag
`0x8825`, and the returned offset is that entry's value field. -/
theorem findGpsLoop_eq_some (d : List ℕ) (o : ByteOrder) :
    ∀ (n pos g : ℕ), findGpsLoop d o pos n = some g →
    ∃ k, k < n ∧ read_u16 d (pos + 12 * k) o = 34853 ∧
      g = read_u32 d (pos + 12 * k + 8) o ∧
      ∀ j, j < k → read_u16 d (pos + 12 * j) o ≠ 34853 := by
  intro n
  induction n with
  | zero => intro pos g h; simp [findGpsLoop] at h
  | succ m ih =>
    intro pos g h
    simp only [findGpsLoop] at h
    by_cases hguard : pos + 12 > d.length
    · simp [hguard] at h
    · rw [if_neg hguard] at h
      by_cases htag : read_u16 d pos o = 34853
      · rw [if_pos htag] at h
        exact ⟨0, by omega, by simpa using htag,
          by simpa using (Option.some.inj h).symm, by omega⟩
      · rw [if_neg htag] at h
        obtain ⟨k, hk, htg, hg, hfirst⟩ := ih (pos + 12) g h
        refine ⟨k + 1, by omega, ?_, ?_, ?_⟩
        · rw [show pos + 12 * (k + 1) = pos + 12 + 12 * k by ring]
          exact htg
        · rw [show pos + 12 * (k + 1) + 8 = pos + 12 + 12 * k + 8 by ring]
          exact hg
        · intro j hj
          cases j with
          | zero => simpa using htag
          | succ j' =>
            rw [show pos + 12 * (j' + 1) = pos + 12 + 12 * j' by ring]
            exact hfirst j' (by omega)

/-- C7: the malformed-EXIF fallback scanner locates the GPS directory
exclusively by scanning IFD0's own 12-byte entries for the
GPS-IFD-pointer tag `0x8825` (34853) and returning that entry's offset
field; it never reads the next-IFD link that follows the entries, so its
output is unchanged when two same-length buffers differ only at or past
the link position `ifd + 2 + 12·entryCount`. -/
theorem C7_malformed_scanner_ignores_next_ifd_link :
    (∀ (d1 d2 : List ℕ) (tiffStart ifdOffset : ℕ) (o : ByteOrder),
      d1.length = d2.length →
      (∀ j, j < tiffStart + ifdOffset + 2 +
          12 * read_u16 d1 (tiffStart + ifdOffset) o →
        byteAt d1 j = byteAt d2 j) →
      find_gps_ifd_offset d1 tiffStart ifdOffset o =
        find_gps_ifd_offset d2 tiffStart ifdOffset o) ∧
    (∀ (d : List ℕ) (tiffStart ifdOffset : ℕ) (o : ByteOrder) (g : ℕ),
      find_gps_ifd_offset d tiffStart ifdOffset o = some g →
      ∃ k, k < read_u16 d (tiffStart + ifdOffset) o ∧
        read_u16 d (tiffStart + ifdOffset + 2 + 12 * k) o = 34853 ∧
        g = read_u32 d (tiffStart + ifdOffset + 2 + 12 * k + 8) o ∧
        ∀ j, j < k →
          read_u16 d (tiffStart + ifdOffset + 2 + 12 * j) o ≠ 34853) := by
  constructor
  · intro d1 d2 ts off o hlen hag
    have h16 : read_u16 d1 (ts + off) o = read_u16 d2 (ts + off) o :=
      read_u16_congr d1 d2 (ts + off)
        (ts + off + 2 + 12 * read_u16 d1 (ts + off) o) o hag (by omega)
    have hag2 : ∀ j, j < ts + off + 2 +
        12 * read_u16 d2 (ts + off) o → byteAt d1 j = byteAt d2 j := by
      rw [← h16]; exact hag
    simp only [find_gps_ifd_offset]
    rw [hlen, h16]
    split
    · rfl
    · exact findGpsLoop_congr d1 d2 o (read_u16 d2 (ts + off) o) (ts + off + 2)
        hlen hag2
  · intro d ts off o g h
    simp only [find_gps_ifd_offset] at h
    by_cases hguard : ts + off + 2 > d.length
    · simp [hguard] at h
    · rw [if_neg hguard] at h
      exact findGpsLoop_eq_some d o (read_u16 d (ts + off) o) (ts + off + 2) g h

/-- C7 witness: corrupting the four next-IFD-link bytes of a concrete
IFD0 changes nothing, and the successful search indeed names the
`0x8825` entry. -/
theorem C7_malformed_scanner_ignores_next_ifd_link_witness :
    find_gps_ifd_offset ifd0CleanLinkBuf 0 0 .littleEndian =
      find_gps_ifd_offset ifd0DirtyLinkBuf 0 0 .littleEndian ∧
    (∃ k, k < read_u16 ifd0CleanLinkBuf 0 .littleEndian ∧
      read_u16 ifd0CleanLinkBuf (0 + 0 + 2 + 12 * k) .littleEndian = 34853 ∧
      100 = read_u32 ifd0CleanLinkBuf (0 + 0 + 2 + 12 * k + 8) .littleEndian ∧
      ∀ j, j < k →
        read_u16 ifd0CleanLinkBuf (0 + 0 + 2 + 12 * j) .littleEndian ≠ 34853) := by
  constructor
  · exact C7_malformed_scanner_ignores_next_ifd_link.1 ifd0CleanLinkBuf
      ifd0DirtyLinkBuf 0 0 .littleEndian (by decide) (by decide)
  · exact C7_malformed_scanner_ignores_next_ifd_link.2 ifd0CleanLinkBuf 0 0
      .littleEndian 100 (by decide)

/-- The all-directories fallback loop succeeds whenever some listed field
carries the coordinate tag with a resolvable value and its directory has
a reference field. -/
theorem fallbackScan_isSome_of_mem (all : List ExifField) (coordTag refTag : ℕ) :
    ∀ (fields : List ExifField) (f : ExifField), f ∈ fields →
    f.tag = coordTag → (resolveCoordValue f.value).isSome →
    (findRefField all refTag f.ifdNum).isSome →
    (fallbackScan fields all coordTag refTag).isSome := by
  intro fields
  induction fields with
  | nil => intro f hf _ _ _; simp at hf
  | cons a rest ih =>
    intro f hf hft hres href
    rcases List.mem_cons.mp hf with rfl | hf'
    · obtain ⟨x, hx⟩ := Option.isSome_iff_exists.mp hres
      obtain ⟨rf, hrf⟩ := Option.isSome_iff_exists.mp href
      simp [fallbackScan, hft, hx, hrf]
    · by_cases ht : a.tag = coordTag
      · cases hr : findRefField all refTag a.ifdNum <;>
          cases hv : resolveCoordValue a.value <;>
          simp [fallbackScan, ht, hr, hv] <;>
          exact ih f hf' hft hres href
      · simp only [fallbackScan, if_neg ht]
        exact ih f hf' hft hres href

/-- C8: both Rational and SRational 3-element coordinate fields are
accepted, in the primary directory or — via the all-directories fallback
scan — in any directory that also holds the matching reference tag:
(i) whenever some field carries the coordinate tag with a resolvable
(S)Rational value and its directory also has the reference tag, the
resolver returns a value; (ii) for an SRational pair living alone in a
non-primary directory, the resolver returns exactly the signed decimal. -/
theorem C8_srational_and_fallback_directories :
    (∀ (e : ExifData) (coordTag refTag : ℕ) (f : ExifField), f ∈ e.fields →
      f.tag = coordTag → (resolveCoordValue f.value).isSome →
      (∃ g ∈ e.fields, g.tag = refTag ∧ g.ifdNum = f.ifdNum) →
      (get_gps_coord e coordTag refTag).isSome) ∧
    (∀ (p q r : ℤ × ℤ) (c ifd coordTag refTag : ℕ), ifd ≠ 0 →
      coordTag ≠ refTag → p.2 ≠ 0 → q.2 ≠ 0 → r.2 ≠ 0 →
      get_gps_coord ⟨[⟨coordTag, ifd, .srational [p, q, r]⟩,
          ⟨refTag, ifd, .ascii [[c]]⟩]⟩ coordTag refTag =
        some (.finite (if c = 83 ∨ c = 87
          then -((p.1 : ℚ) / p.2 + ((q.1 : ℚ) / q.2) / 60 +
            ((r.1 : ℚ) / r.2) / 3600)
          else (p.1 : ℚ) / p.2 + ((q.1 : ℚ) / q.2) / 60 +
            ((r.1 : ℚ) / r.2) / 3600))) := by
  constructor
  · intro e coordTag refTag f hf hft hres href
    have hrefS : (findRefField e.fields refTag f.ifdNum).isSome := by
      obtain ⟨g, hg, hgt, hgi⟩ := href
      exact List.find?_isSome.mpr ⟨g, hg, by simp [hgt, hgi]⟩
    unfold get_gps_coord
    cases ht : try_get_gps_from_ifd e coordTag refTag 0
    · simpa using fallbackScan_isSome_of_mem e.fields coordTag refTag e.fields
        f hf hft hres hrefS
    · simp
  · intro p q r c ifd coordTag refTag hifd hne hp hq hr
    have hp' : ((p.2 : ℤ) : ℚ) ≠ 0 := Int.cast_ne_zero.mpr hp
    have hq' : ((q.2 : ℤ) : ℚ) ≠ 0 := Int.cast_ne_zero.mpr hq
    have hr' : ((r.2 : ℤ) : ℚ) ≠ 0 := Int.cast_ne_zero.mpr hr
    have hcoord0 : getField ⟨[⟨coordTag, ifd, .srational [p, q, r]⟩,
        ⟨refTag, ifd, .ascii [[c]]⟩]⟩ coordTag 0 = none := by
      simp [getField, List.find?, hifd]
    have hfallRef : findRefField [⟨coordTag, ifd, .srational [p, q, r]⟩,
        ⟨refTag, ifd, .ascii [[c]]⟩] refTag ifd =
        some ⟨refTag, ifd, .ascii [[c]]⟩ := by
      have hd : (decide (coordTag = refTag)) = false := decide_eq_false hne
      simp [findRefField, List.find?, hd]
    simp only [get_gps_coord, try_get_gps_from_ifd, hcoord0]
    simp only [fallbackScan, if_pos rfl, hfallRef, resolveCoordValue,
      sratToF64]
    rw [ediv_finite_of_ne _ _ hp', ediv_finite_of_ne _ _ hq',
      ediv_finite_of_ne _ _ hr', dmsCombine_finite]
    simp only [applyRef, displayFirstByte, List.headD, List.head?]
    by_cases h83 : c = 83 ∨ c = 87
    · simp [h83, eneg]
    · simp [h83]

/-- C8 witness: an SRational latitude of 30° with reference `'S'` living
in directory 3 (and nothing in the primary directory) is found by the
fallback scan and resolves to −30. -/
theorem C8_srational_and_fallback_directories_witness :
    (get_gps_coord srationalIfd3Data gpsLatTag gpsLatRefTag).isSome = true ∧
    get_gps_coord srationalIfd3Data gpsLatTag gpsLatRefTag =
      some (.finite (-30)) := by
  constructor
  · exact C8_srational_and_fallback_directories.1 srationalIfd3Data gpsLatTag
      gpsLatRefTag ⟨gpsLatTag, 3, .srational [((30 : ℤ), 1), (0, 1), (0, 1)]⟩
      (by simp [srationalIfd3Data]) rfl (by decide) (by decide)
  · have h := C8_srational_and_fallback_directories.2 ((30 : ℤ), 1) (0, 1)
      (0, 1) 83 3 gpsLatTag gpsLatRefTag (by decide) (by decide) (by decide)
      (by decide) (by decide)
    rw [show srationalIfd3Data = ⟨[⟨gpsLatTag, 3,
      .srational [((30 : ℤ), 1), (0, 1), (0, 1)]⟩,
      ⟨gpsLatRefTag, 3, .ascii [[83]]⟩]⟩ from rfl, h]
    norm_num

/-- C9 counterexample: a block beginning with a valid little-endian TIFF
marker at offset 0 but carrying `"Exif\0\0"` at bytes 4..10.  The
claim's procedure (try 0, then 6, then 10, validated by a TIFF marker)
selects offset 0; the code selects offset 10 and never inspects a TIFF
marker. -/
theorem C9_heic_prefix_counterexample :
    heicTiffHeaderStart heicAmbiguousBuf = 10 ∧
    specHeicTiffHeaderStart heicAmbiguousBuf = some 0 ∧ (10 : ℕ) ≠ 0 := by
  decide

/-- C9 (amended): the adapter picks prefix offset 10 exactly when the
block is longer than 4 bytes and bytes 4..10 equal `"Exif\0\0"`,
otherwise 6 exactly when the block starts with `"Exif\0\0"`, otherwise 0;
the validation checks the `"Exif\0\0"` magic, not a TIFF byte-order
marker, and tries 10 before 6 before 0. -/
theorem C9_heic_prefix_selection (d : List ℕ) :
    (heicTiffHeaderStart d = 10 ↔ d.length > 4 ∧ bytesAt d 4 6 = exifSig) ∧
    (heicTiffHeaderStart d = 6 ↔
      ¬(d.length > 4 ∧ bytesAt d 4 6 = exifSig) ∧ bytesAt d 0 6 = exifSig) ∧
    (heicTiffHeaderStart d = 0 ↔
      ¬(d.length > 4 ∧ bytesAt d 4 6 = exifSig) ∧
        ¬(bytesAt d 0 6 = exifSig)) := by
  by_cases h1 : d.length > 4 ∧ bytesAt d 4 6 = exifSig <;>
    by_cases h2 : bytesAt d 0 6 = exifSig <;>
    norm_num [heicTiffHeaderStart, h1, h2]

/-- C10: the capture-timestamp resolver consults `DateTimeOriginal` and
`DateTime` only in the primary directory: when every field carrying
either tag lives outside directory 0, no timestamp is returned. -/
theorem C10_datetime_primary_only (e : ExifData)
    (h : ∀ f ∈ e.fields,
      f.tag = dateTimeOriginalTag ∨ f.tag = dateTimeTag → f.ifdNum ≠ 0) :
    get_datetime_from_exif e = none := by
  have h1 : getField e dateTimeOriginalTag 0 = none :=
    List.find?_eq_none.mpr (fun f hf => by
      simp only [decide_eq_true_eq, not_and]
      intro htag
      exact h f hf (Or.inl htag))
  have h2 : getField e dateTimeTag 0 = none :=
    List.find?_eq_none.mpr (fun f hf => by
      simp only [decide_eq_true_eq, not_and]
      intro htag
      exact h f hf (Or.inr htag))
  simp [get_datetime_from_exif, datetimeFromTag, h1, h2]

/-- C10 witness: a dataset whose `DateTimeOriginal` and GPS fields all
live in directory 1 yields no timestamp even though the GPS fallback does
find the coordinate there. -/
theorem C10_datetime_primary_only_witness :
    get_datetime_from_exif nonPrimaryDatetimeData = none ∧
    (get_gps_coord nonPrimaryDatetimeData gpsLatTag gpsLatRefTag).isSome =
      true := by
  exact ⟨C10_datetime_primary_only nonPrimaryDatetimeData (by decide),
    by decide⟩

end Photomap
